import Mathlib

/-!
Verification of the EverVoice recording/processing subsystem.

The definitions below are shallow embeddings of the TypeScript sources:
the duration tracker (src/hooks/use-recording-duration.ts), the processing
orchestrator and display projection of the Home page, and the store
operations they drive.  Machine numbers are modelled as Nat/Int (all the
quantities involved are small nonnegative integers; the only fractional
constant, the 0.8 warning threshold on a whole number of minutes, is exact:
60 * 0.8 = 48).
-/

set_option autoImplicit false
set_option linter.unnecessarySeqFocus false

namespace EverVoice

/-! ### Duration tracking: src/hooks/use-recording-duration.ts -/

/-- Left-pad a string with the character 0 to length two, as
String(n).padStart(2, c) does for c the zero character. -/
def padTwo (s : String) : String :=
  String.mk (List.replicate (2 - s.length) '0') ++ s

/-- Format seconds as MM:SS (formatDuration in use-recording-duration.ts):
minutes = totalSeconds / 60, seconds = totalSeconds % 60, each rendered in
decimal and left-padded with zeros to at least two characters. -/
def formatDuration (totalSeconds : Nat) : String :=
  let minutes := totalSeconds / 60
  let seconds := totalSeconds % 60
  padTwo (Nat.repr minutes) ++ ":" ++ padTwo (Nat.repr seconds)

/-- Max duration budget in seconds: maxDuration (minutes, from settings) * 60. -/
def maxDurationSeconds (maxDuration : Nat) : Nat := maxDuration * 60

/-- Warning threshold in seconds: maxDurationSeconds * WARNING_THRESHOLD_PERCENT,
with WARNING_THRESHOLD_PERCENT = 0.8.  On a whole number of minutes this is
exact: maxDuration * 60 * 0.8 = maxDuration * 48 (the double rounding in the
source produces exactly this integer). -/
def warningThresholdSeconds (maxDuration : Nat) : Nat := maxDuration * 48

/-- Remaining time: Math.max(0, maxDurationSeconds - elapsedSeconds).  The
subtraction is over JS numbers, so it is carried out in Int before the max. -/
def remainingSeconds (maxDuration elapsed : Nat) : Int :=
  max 0 ((maxDurationSeconds maxDuration : Int) - (elapsed : Int))

/-- State of the useRecordingDuration hook together with the store fields it
drives.  timerRef is modelled by timerActive, isPausedRef by isPaused,
autoStopTriggeredRef by autoStopTriggered; elapsedSeconds and
warningTriggered live in the recording store.  warningSetCount counts the
setWarningTriggered(true) calls, autoStopCount the onAutoStop invocations,
deliveredTicks the interval callbacks that fired, pausedTicks those that
fired while paused: these three counters instrument the embedding and are
written by no other operation. -/
structure DurationState where
  elapsedSeconds : Nat
  warningTriggered : Bool
  timerActive : Bool
  isPaused : Bool
  autoStopTriggered : Bool
  warningSetCount : Nat
  autoStopCount : Nat
  deliveredTicks : Nat
  pausedTicks : Nat
deriving Repr, DecidableEq

/-- showWarning: elapsedSeconds >= warningThresholdSeconds. -/
def showWarning (maxDuration : Nat) (s : DurationState) : Bool :=
  warningThresholdSeconds maxDuration ≤ s.elapsedSeconds

/-- maxDurationReached: elapsedSeconds >= maxDurationSeconds. -/
def maxDurationReached (maxDuration : Nat) (s : DurationState) : Bool :=
  maxDurationSeconds maxDuration ≤ s.elapsedSeconds

/-- Events of the duration tracker: a 1-second interval callback (tick) and
the four timer control operations returned by the hook. -/
inductive DurationEvent
  | tick
  | startTimer
  | pauseTimer
  | resumeTimer
  | stopTimer
deriving Repr, DecidableEq

/-- Apply one event, following the source: the interval callback fires only
while the interval exists (timerActive) and increments elapsedSeconds only
when not paused; startTimer clears any existing timer, resets isPausedRef and
autoStopTriggeredRef and starts the interval; pauseTimer and resumeTimer
toggle isPausedRef; stopTimer clears the timer and unpauses. -/
def applyEvent (s : DurationState) : DurationEvent → DurationState
  | .tick =>
      if s.timerActive then
        if s.isPaused then
          { s with deliveredTicks := s.deliveredTicks + 1,
                   pausedTicks := s.pausedTicks + 1 }
        else
          { s with deliveredTicks := s.deliveredTicks + 1,
                   elapsedSeconds := s.elapsedSeconds + 1 }
      else s
  | .startTimer =>
      { s with timerActive := true, isPaused := false, autoStopTriggered := false }
  | .pauseTimer => { s with isPaused := true }
  | .resumeTimer => { s with isPaused := false }
  | .stopTimer => { s with timerActive := false, isPaused := false }

/-- The threshold effect of the hook, run after each event: if showWarning
and warningTriggered is not yet set, set it (once); if maxDurationReached and
autoStopTriggeredRef is not yet set, set it, clear the timer and invoke the
onAutoStop callback. -/
def runEffect (maxDuration : Nat) (s : DurationState) : DurationState :=
  let s1 :=
    if showWarning maxDuration s && !s.warningTriggered then
      { s with warningTriggered := true, warningSetCount := s.warningSetCount + 1 }
    else s
  if maxDurationReached maxDuration s1 && !s1.autoStopTriggered then
    { s1 with autoStopTriggered := true, timerActive := false,
              autoStopCount := s1.autoStopCount + 1 }
  else s1

/-- One step: the event followed by the effect that re-runs on the rerender. -/
def stepDuration (maxDuration : Nat) (s : DurationState) (e : DurationEvent) :
    DurationState :=
  runEffect maxDuration (applyEvent s e)

/-- Run a sequence of events. -/
def runDuration (maxDuration : Nat) (s : DurationState) (evs : List DurationEvent) :
    DurationState :=
  evs.foldl (stepDuration maxDuration) s

/-- The tracker before any session: nothing elapsed, no latch set, no timer. -/
def idleDurationState : DurationState :=
  { elapsedSeconds := 0, warningTriggered := false, timerActive := false,
    isPaused := false, autoStopTriggered := false, warningSetCount := 0,
    autoStopCount := 0, deliveredTicks := 0, pausedTicks := 0 }

/-- The state right after a fresh session started: handleStart has reset the
elapsed counter and the warning latch in the store and called startTimer. -/
def sessionStart : DurationState :=
  { idleDurationState with timerActive := true }

/-- The bookkeeping identity behind claim C5: at every reachable point,
elapsedSeconds plus the ticks delivered while paused equals all delivered
ticks (ticks delivered with no active interval are not delivered at all,
because clearInterval stops the callback). -/
def tickCountInv (s : DurationState) : Prop :=
  s.elapsedSeconds + s.pausedTicks = s.deliveredTicks

/-- Invariant of one session (a run of ticks, pauses and resumes after a
fresh start, with no further startTimer): each latch equals its threshold
condition, each counter records whether its latch fired, elapsed time never
exceeds the budget, and the interval is cleared once the budget is reached. -/
def sessionInv (m : Nat) (s : DurationState) : Prop :=
  s.warningSetCount = (if s.warningTriggered then 1 else 0) ∧
  (s.warningTriggered ↔ warningThresholdSeconds m ≤ s.elapsedSeconds) ∧
  s.autoStopCount = (if s.autoStopTriggered then 1 else 0) ∧
  (s.autoStopTriggered ↔ maxDurationSeconds m ≤ s.elapsedSeconds) ∧
  s.elapsedSeconds ≤ maxDurationSeconds m ∧
  (s.timerActive → s.elapsedSeconds < maxDurationSeconds m)

/-- Predicate on strings: a well-formed non-negative MM:SS value, that is,
the rendering of a nonnegative number of minutes and a seconds value below
sixty, each zero-padded to at least two digits. -/
def isWellFormedMMSS (str : String) : Prop :=
  ∃ mm ss : Nat, ss < 60 ∧
    str = padTwo (Nat.repr mm) ++ ":" ++ padTwo (Nat.repr ss)

/-! ### Processing orchestrator and display projection (Home page, src/app/page.tsx)

The current revision of the page is embedded; it guards processRecording with
isProcessingRef, resets the capture subsystem to idle on every completion
path, persists the generated summary onto the matching history entry, and
prefers a fresh summary over a persisted one when rendering. -/

/-- Transcription error kinds of the Rust backend (types/recording.ts). -/
inductive TranscriptionErrorType
  | api_key_not_configured
  | invalid_api_key
  | file_not_found
  | file_read_error
  | invalid_audio_format
  | network_error
  | rate_limit_exceeded
  | api_error
  | unknown
deriving Repr, DecidableEq

/-- Structured transcription error stored by the frontend (types/recording.ts). -/
structure TranscriptionError where
  type : TranscriptionErrorType
  message : String
  retryable : Bool
deriving Repr, DecidableEq

/-- Transcription response from the backend (types/recording.ts): null fields
are Option none. -/
structure TranscriptionResponse where
  success : Bool
  text : Option String
  errorType : Option TranscriptionErrorType
  errorMessage : Option String
  retryable : Option Bool
deriving Repr, DecidableEq

/-- TranscriptionState of types/recording.ts. -/
inductive TranscriptionState
  | idle
  | transcribing
  | success
  | error
deriving Repr, DecidableEq

/-- SummaryState of types/recording.ts. -/
inductive SummaryState
  | idle
  | loading
  | success
  | error
deriving Repr, DecidableEq

/-- RecordingState of types/recording.ts. -/
inductive RecordingState
  | idle
  | recording
  | paused
  | stopped
deriving Repr, DecidableEq

/-- Recording history item (types/recording.ts); summary is the optional
attached markdown. -/
structure Recording where
  id : String
  filePath : String
  durationSeconds : Nat
  transcription : String
  createdAt : String
  summary : Option String
deriving Repr, DecidableEq

/-- Combined session state visible to the Home page: the recording store
fields, the history store fields, and the isProcessingRef guard.
transcribeCalls counts invocations of the transcription collaborator,
summarizeCalls those of the summarization collaborator, and warnings the
console.warn side-channel reports; these instrument the embedding and are
written nowhere else. -/
structure AppState where
  recordingState : RecordingState
  transcription : Option String
  transcriptionState : TranscriptionState
  transcriptionError : Option TranscriptionError
  summary : Option String
  summarySourceText : Option String
  summaryState : SummaryState
  summaryError : Option String
  recordings : List Recording
  selectedRecordingId : Option String
  isProcessing : Bool
  transcribeCalls : Nat
  summarizeCalls : Nat
  warnings : List String
deriving Repr, DecidableEq

/-- Behaviour of the awaited external collaborators during one
processRecording run: the transcription call either returns a response or
throws (Except.error carries the thrown message), summarizeText either
returns markdown or throws, updateHistorySummary either resolves or rejects;
newRecordingId and createdAt are produced by the backend when the history
entry is created. -/
structure ProcessingEnv where
  transcribe : Except String TranscriptionResponse
  summarize : Except String String
  updateHistorySummary : Except String Unit
  newRecordingId : String
  createdAt : String

/-- JS truthiness of an optional string: null and the empty string are falsy. -/
def optStrFalsy : Option String → Bool
  | none => true
  | some t => t = ""

/-- The JS expression o || d on an optional string: the default replaces
null and the empty string. -/
def optStrOrElse (o : Option String) (d : String) : String :=
  match o with
  | none => d
  | some t => if t = "" then d else t

/-- retryable as computed in the failure branch of processRecording:
errorType === network_error || errorType === rate_limit_exceeded. -/
def transcribeRetryable (et : Option TranscriptionErrorType) : Bool :=
  et = some TranscriptionErrorType.network_error ||
    et = some TranscriptionErrorType.rate_limit_exceeded

/-- Modelled from the spec: stores/history-store.ts is not under src/ (only
its tests and callers are).  Per the spec (create in the history interface,
and the orchestrator step where the newly created entry becomes the current
Selection target) addRecording persists a new entry from the storage
locator, duration and transcribed text, the refreshed newest-first list puts
it in front, and selectedRecordingId is set to the new id. -/
def addRecordingToHistory (env : ProcessingEnv) (s : AppState)
    (filePath : String) (durationSeconds : Nat) (text : String) : AppState :=
  { s with
      recordings :=
        { id := env.newRecordingId, filePath := filePath,
          durationSeconds := durationSeconds, transcription := text,
          createdAt := env.createdAt, summary := none } :: s.recordings,
      selectedRecordingId := some env.newRecordingId }

/-- Modelled from the spec: the backend update_history_summary command plus
the loadHistory refresh attach the markdown summary to the entry with the
matching id. -/
def attachSummaryToHistory (s : AppState) (id : String) (md : String) : AppState :=
  { s with
      recordings := s.recordings.map fun r =>
        if r.id = id then { r with summary := some md } else r }

/-- The synchronous prefix of processRecording before the first await: the
re-entry guard is set, the transcription phase is marked running and its
error cleared, and the transcription collaborator is invoked (counted here;
its response is consumed by processResponse).  This runs only when the guard
was not already set. -/
def prStart (s : AppState) : AppState :=
  { s with isProcessing := true,
           transcriptionState := TranscriptionState.transcribing,
           transcriptionError := none,
           transcribeCalls := s.transcribeCalls + 1 }

/-- The common failed-transcription update: store the error, mark the phase
failed, reset the capture subsystem to idle (setRecordingState plus the
recorder reset) and release the guard before returning. -/
def prFailState (s : AppState) (e : TranscriptionError) : AppState :=
  { s with transcriptionError := some e,
           transcriptionState := TranscriptionState.error,
           recordingState := RecordingState.idle,
           isProcessing := false }

/-- The rest of processRecording from the transcription response (or thrown
error) onward, as written in the page: response-failure and catch branches
fail the transcription outcome and return; on success the text is stored,
the history entry created, then the summarization phase runs, with its
success path persisting the summary onto the selected entry (a rejection
there only records a console warning), and every path ends with the capture
reset to idle and the guard released. -/
def processResponse (env : ProcessingEnv) (filePath : String)
    (durationSeconds : Nat) (s : AppState) : AppState :=
  match env.transcribe with
  | Except.error msg =>
      prFailState s
        { type := TranscriptionErrorType.unknown, message := msg, retryable := true }
  | Except.ok resp =>
      if !resp.success || optStrFalsy resp.text then
        prFailState s
          { type := resp.errorType.getD TranscriptionErrorType.unknown,
            message := optStrOrElse resp.errorMessage "Transcription failed",
            retryable := transcribeRetryable resp.errorType }
      else
        let t := resp.text.getD ""
        let s1 := { s with transcription := some t,
                           transcriptionState := TranscriptionState.success }
        let s2 := addRecordingToHistory env s1 filePath durationSeconds t
        let s3 := { s2 with summaryState := SummaryState.loading,
                            summaryError := none,
                            summarizeCalls := s2.summarizeCalls + 1 }
        match env.summarize with
        | Except.error msg =>
            { s3 with summaryState := SummaryState.error,
                      summaryError := some msg,
                      recordingState := RecordingState.idle,
                      isProcessing := false }
        | Except.ok md =>
            let s4 := { s3 with summary := some md,
                                summarySourceText := some t,
                                summaryState := SummaryState.success }
            let s5 :=
              match s4.selectedRecordingId with
              | none => s4
              | some selId =>
                  match env.updateHistorySummary with
                  | Except.ok _ => attachSummaryToHistory s4 selId md
                  | Except.error perr => { s4 with warnings := s4.warnings ++ [perr] }
            { s5 with recordingState := RecordingState.idle,
                      isProcessing := false }

/-- processRecording(recordingFilePath, recordingDuration): a no-op when the
guard is already set, otherwise the synchronous entry followed by the
continuation on the collaborators' results. -/
def processRecording (env : ProcessingEnv) (filePath : String)
    (durationSeconds : Nat) (s : AppState) : AppState :=
  if s.isProcessing then s
  else processResponse env filePath durationSeconds (prStart s)

/-- Modelled from the spec: getSelectedRecording of stores/history-store.ts
is not under src/; it returns the recording whose id equals
selectedRecordingId, if any. -/
def getSelectedRecording (s : AppState) : Option Recording :=
  match s.selectedRecordingId with
  | none => none
  | some i => s.recordings.find? fun r => r.id = i

/-- displayTranscription: selectedRecording?.transcription ?? transcription. -/
def displayTranscription (s : AppState) : Option String :=
  match getSelectedRecording s with
  | some r => some r.transcription
  | none => s.transcription

/-- hasFreshSummary: summary !== null && summaryState === success. -/
def hasFreshSummary (s : AppState) : Bool :=
  s.summary.isSome && s.summaryState = SummaryState.success

/-- hasSelectedRecordingWithSummary: selectedRecording?.summary is neither
undefined nor null. -/
def hasSelectedRecordingWithSummary (s : AppState) : Bool :=
  (Option.bind (getSelectedRecording s) Recording.summary).isSome

/-- displaySummary of the page: the fresh summary first (just generated),
else the persisted summary of the selected recording, else null. -/
def displaySummary (s : AppState) : Option String :=
  if hasFreshSummary s then s.summary
  else if hasSelectedRecordingWithSummary s then
    Option.bind (getSelectedRecording s) Recording.summary
  else none

/-- displaySummaryState of the page. -/
def displaySummaryState (s : AppState) : SummaryState :=
  if hasFreshSummary s then s.summaryState
  else if hasSelectedRecordingWithSummary s then SummaryState.success
  else s.summaryState

/-- Modelled from the spec: stores/recording-store.ts is not under src/
(only its tests are).  Per the spec, clearForRetry resets TranscriptionOutcome
and SummaryOutcome to idle/null, which is the clearTranscription action the
page calls; recording-store-summary.test.ts pins exactly this behaviour. -/
def clearTranscription (s : AppState) : AppState :=
  { s with transcription := none,
           transcriptionState := TranscriptionState.idle,
           transcriptionError := none,
           summary := none,
           summarySourceText := none,
           summaryState := SummaryState.idle,
           summaryError := none }

/-! ### Concrete instances used by witnesses and counterexamples -/

/-- Initial recording-store state (recording-store.test.ts): idle, nothing
recorded, nothing selected, guard clear. -/
def initialAppState : AppState :=
  { recordingState := RecordingState.idle, transcription := none,
    transcriptionState := TranscriptionState.idle, transcriptionError := none,
    summary := none, summarySourceText := none,
    summaryState := SummaryState.idle, summaryError := none,
    recordings := [], selectedRecordingId := none, isProcessing := false,
    transcribeCalls := 0, summarizeCalls := 0, warnings := [] }

/-- A successful transcription response. -/
def respSuccess : TranscriptionResponse :=
  { success := true, text := some "hello world", errorType := none,
    errorMessage := none, retryable := none }

/-- A failed response with a consistent reported retryable flag. -/
def respNetworkFail : TranscriptionResponse :=
  { success := false, text := none,
    errorType := some TranscriptionErrorType.network_error,
    errorMessage := some "net down", retryable := some true }

/-- A failed response whose reported retryable flag contradicts its kind. -/
def respReportedNotRetryable : TranscriptionResponse :=
  { success := false, text := none,
    errorType := some TranscriptionErrorType.network_error,
    errorMessage := some "net down", retryable := some false }

/-- Collaborators that all succeed. -/
def envSuccess : ProcessingEnv :=
  { transcribe := Except.ok respSuccess, summarize := Except.ok "## Summary",
    updateHistorySummary := Except.ok (), newRecordingId := "id1",
    createdAt := "t0" }

/-- Collaborators with a failed transcription response. -/
def envNetworkFail : ProcessingEnv :=
  { envSuccess with transcribe := Except.ok respNetworkFail }

/-- Collaborators with a failed response reporting retryable = false. -/
def envReportedNotRetryable : ProcessingEnv :=
  { envSuccess with transcribe := Except.ok respReportedNotRetryable }

/-- Collaborators whose transcription call throws. -/
def envThrown : ProcessingEnv :=
  { envSuccess with transcribe := Except.error "boom" }

/-- Collaborators whose summarization call throws. -/
def envSummaryFail : ProcessingEnv :=
  { envSuccess with summarize := Except.error "sum broke" }

/-- Collaborators whose summary persistence rejects. -/
def envAttachFail : ProcessingEnv :=
  { envSuccess with updateHistorySummary := Except.error "persist failed" }

/-- A history entry with a persisted summary. -/
def recordingA : Recording :=
  { id := "A", filePath := "fa", durationSeconds := 3,
    transcription := "a-text", createdAt := "t0", summary := some "a-sum" }

/-- Entry A selected while a fresh live summary exists whose recorded
sourceText does not match the displayed transcription. -/
def mismatchedSummaryState : AppState :=
  { initialAppState with
      recordings := [recordingA], selectedRecordingId := some "A",
      summary := some "other-sum", summaryState := SummaryState.success,
      summarySourceText := some "b-text" }

/-! ### Theorems -/

theorem runEffect_elapsedSeconds (m : Nat) (s : DurationState) :
    (runEffect m s).elapsedSeconds = s.elapsedSeconds := by
  simp only [runEffect]
  split <;> split <;> rfl

theorem runEffect_deliveredTicks (m : Nat) (s : DurationState) :
    (runEffect m s).deliveredTicks = s.deliveredTicks := by
  simp only [runEffect]
  split <;> split <;> rfl

theorem runEffect_pausedTicks (m : Nat) (s : DurationState) :
    (runEffect m s).pausedTicks = s.pausedTicks := by
  simp only [runEffect]
  split <;> split <;> rfl

theorem tickCountInv_step (m : Nat) (s : DurationState) (e : DurationEvent)
    (h : tickCountInv s) : tickCountInv (stepDuration m s e) := by
  unfold tickCountInv at *
  cases e <;>
    simp only [stepDuration, applyEvent, runEffect_elapsedSeconds,
      runEffect_deliveredTicks, runEffect_pausedTicks]
  case tick => split <;> [skip; omega] <;> split <;> simp <;> omega
  all_goals omega

theorem runEffect_eq_self (m : Nat) (s : DurationState)
    (h1 : s.warningTriggered = showWarning m s)
    (h2 : s.autoStopTriggered = maxDurationReached m s) :
    runEffect m s = s := by
  have hc1 : (showWarning m s && !s.warningTriggered) = false := by
    rw [h1, Bool.and_not_self]
  have hc2 : (maxDurationReached m s && !s.autoStopTriggered) = false := by
    rw [h2, Bool.and_not_self]
  simp [runEffect, hc1, hc2]

theorem tickCountInv_run (m : Nat) (s : DurationState) (evs : List DurationEvent)
    (h : tickCountInv s) : tickCountInv (runDuration m s evs) := by
  induction evs generalizing s with
  | nil => exact h
  | cons e evs ih =>
      exact ih _ (tickCountInv_step m s e h)

theorem sessionInv_start (m : Nat) (hm : 0 < m) : sessionInv m sessionStart := by
  unfold sessionInv sessionStart idleDurationState
  refine ⟨rfl, ?_, rfl, ?_, ?_, ?_⟩ <;>
    simp [warningThresholdSeconds, maxDurationSeconds] <;> omega

theorem sessionInv_step (m : Nat) (s : DurationState) (e : DurationEvent)
    (he : e ≠ DurationEvent.startTimer) (h : sessionInv m s) :
    sessionInv m (stepDuration m s e) := by
  obtain ⟨h1, h2, h3, h4, h5, h6⟩ := h
  have hwb : s.warningTriggered = showWarning m s := by
    simp only [showWarning]
    cases hw : s.warningTriggered with
    | true => simp [h2.1 hw]
    | false =>
        have := mt h2.2 (by simp [hw])
        simp [this]
  have hab : s.autoStopTriggered = maxDurationReached m s := by
    simp only [maxDurationReached]
    cases ha : s.autoStopTriggered with
    | true => simp [h4.1 ha]
    | false =>
        have := mt h4.2 (by simp [ha])
        simp [this]
  cases e with
  | startTimer => exact absurd rfl he
  | pauseTimer =>
      have happ : applyEvent s .pauseTimer = { s with isPaused := true } := rfl
      rw [stepDuration, happ,
        runEffect_eq_self m { s with isPaused := true } hwb hab]
      exact ⟨h1, h2, h3, h4, h5, h6⟩
  | resumeTimer =>
      have happ : applyEvent s .resumeTimer = { s with isPaused := false } := rfl
      rw [stepDuration, happ,
        runEffect_eq_self m { s with isPaused := false } hwb hab]
      exact ⟨h1, h2, h3, h4, h5, h6⟩
  | stopTimer =>
      have happ : applyEvent s .stopTimer =
          { s with timerActive := false, isPaused := false } := rfl
      rw [stepDuration, happ,
        runEffect_eq_self m { s with timerActive := false, isPaused := false } hwb hab]
      exact ⟨h1, h2, h3, h4, h5, by simp⟩
  | tick =>
      by_cases hta : s.timerActive
      · by_cases hp : s.isPaused
        · have happ : applyEvent s .tick =
              { s with deliveredTicks := s.deliveredTicks + 1,
                       pausedTicks := s.pausedTicks + 1 } := by
            simp [applyEvent, hta, hp]
          rw [stepDuration, happ,
            runEffect_eq_self m
              { s with deliveredTicks := s.deliveredTicks + 1,
                       pausedTicks := s.pausedTicks + 1 } hwb hab]
          exact ⟨h1, h2, h3, h4, h5, fun _ => h6 hta⟩
        · have happ : applyEvent s .tick =
              { s with deliveredTicks := s.deliveredTicks + 1,
                       elapsedSeconds := s.elapsedSeconds + 1 } := by
            simp [applyEvent, hta, hp]
          have hlt : s.elapsedSeconds < maxDurationSeconds m := h6 hta
          have hast : s.autoStopTriggered = false := by
            cases ha : s.autoStopTriggered with
            | false => rfl
            | true => exact absurd (h4.1 ha) (by omega)
          rw [stepDuration, happ]
          unfold sessionInv runEffect showWarning maxDurationReached
          by_cases hw1 : warningThresholdSeconds m ≤ s.elapsedSeconds + 1 <;>
            by_cases hb1 : maxDurationSeconds m ≤ s.elapsedSeconds + 1 <;>
            cases hwt : s.warningTriggered <;>
            rw [hwt] at h1 h2 <;> simp at h1 h2 <;>
            rw [hast] at h3 <;> simp at h3 <;>
            simp [hwt, hast, hta, hw1, hb1] <;>
            omega
      · have happ : applyEvent s .tick = s := by simp [applyEvent, hta]
        rw [stepDuration, happ, runEffect_eq_self m s hwb hab]
        exact ⟨h1, h2, h3, h4, h5, h6⟩

theorem sessionInv_run (m : Nat) (s : DurationState) (evs : List DurationEvent)
    (hst : DurationEvent.startTimer ∉ evs) (h : sessionInv m s) :
    sessionInv m (runDuration m s evs) := by
  induction evs generalizing s with
  | nil => exact h
  | cons e evs ih =>
      have he : e ≠ DurationEvent.startTimer := fun hc => hst (hc ▸ List.mem_cons_self e evs)
      have hst' : DurationEvent.startTimer ∉ evs := fun hc => hst (List.mem_cons_of_mem e hc)
      exact ih _ hst' (sessionInv_step m s e he h)

theorem elapsed_mono_step (m : Nat) (s : DurationState) (e : DurationEvent) :
    s.elapsedSeconds ≤ (stepDuration m s e).elapsedSeconds := by
  cases e <;>
    simp only [stepDuration, applyEvent, runEffect_elapsedSeconds] <;>
    first
      | exact le_refl _
      | (split <;> [skip; exact le_refl _] <;> split <;> simp)

theorem elapsed_mono_run (m : Nat) (s : DurationState) (evs : List DurationEvent) :
    s.elapsedSeconds ≤ (runDuration m s evs).elapsedSeconds := by
  induction evs generalizing s with
  | nil => exact le_refl _
  | cons e evs ih => exact le_trans (elapsed_mono_step m s e) (ih _)

theorem runDuration_append (m : Nat) (s : DurationState)
    (a b : List DurationEvent) :
    runDuration m s (a ++ b) = runDuration m (runDuration m s a) b :=
  List.foldl_append _ _ _ _

/-- Claim C4: within one session (a run of ticks, pauses and resumes after a
fresh start, with no further startTimer and no reset), the warning latch is
set exactly once, namely it is set precisely when the elapsed time has passed
the 80 percent threshold (so it turns true on the first such tick), it never
returns to false for the rest of the session, and the auto-stop callback is
invoked exactly once, through its own latch, precisely when the elapsed time
reached the budget, no matter how many further ticks occur. -/
theorem useRecordingDuration_latch_once (m : Nat) (evs : List DurationEvent)
    (hm : 0 < m) (hst : DurationEvent.startTimer ∉ evs) :
    (runDuration m sessionStart evs).warningSetCount ≤ 1 ∧
    ((runDuration m sessionStart evs).warningTriggered = true ↔
      warningThresholdSeconds m ≤ (runDuration m sessionStart evs).elapsedSeconds) ∧
    (runDuration m sessionStart evs).autoStopCount ≤ 1 ∧
    ((runDuration m sessionStart evs).autoStopCount = 1 ↔
      maxDurationSeconds m ≤ (runDuration m sessionStart evs).elapsedSeconds) ∧
    (∀ more : List DurationEvent, DurationEvent.startTimer ∉ more →
      (runDuration m sessionStart evs).warningTriggered = true →
      (runDuration m sessionStart (evs ++ more)).warningTriggered = true) := by
  obtain ⟨h1, h2, h3, h4, h5, h6⟩ :=
    sessionInv_run m sessionStart evs hst (sessionInv_start m hm)
  refine ⟨?_, h2, ?_, ?_, ?_⟩
  · rw [h1]; split <;> omega
  · rw [h3]; split <;> omega
  · cases ha : (runDuration m sessionStart evs).autoStopTriggered with
    | true =>
        rw [h3, if_pos ha]
        exact ⟨fun _ => h4.1 ha, fun _ => rfl⟩
    | false =>
        rw [h3, if_neg (by simp [ha])]
        constructor
        · intro hc; exact absurd hc (by omega)
        · intro hb; exact absurd (h4.2 hb) (by simp [ha])
  · intro more hmore hwt
    rw [runDuration_append]
    obtain ⟨g1, g2, g3, g4, g5, g6⟩ :=
      sessionInv_run m (runDuration m sessionStart evs) more hmore
        ⟨h1, h2, h3, h4, h5, h6⟩
    exact g2.2 (le_trans (h2.1 hwt) (elapsed_mono_run m _ more))

/-- Witness for C4: a concrete one-minute session of seventy ticks satisfies
the hypotheses, and the theorem applies to it. -/
theorem useRecordingDuration_latch_once_witness :
    0 < 1 ∧
    DurationEvent.startTimer ∉ List.replicate 70 DurationEvent.tick ∧
    (runDuration 1 sessionStart (List.replicate 70 DurationEvent.tick)).warningSetCount ≤ 1 :=
  ⟨by decide, by decide,
    (useRecordingDuration_latch_once 1 (List.replicate 70 DurationEvent.tick)
      (by decide) (by decide)).1⟩

/-- Claim C5: for every interleaving of the timer operations with ticks,
ending in stopTimer, the elapsed counter equals the ticks delivered minus
the ticks delivered while paused (a tick adds a second exactly when the
interval exists and the tracker is not paused). -/
theorem elapsedSeconds_after_stop (m : Nat) (evs : List DurationEvent) :
    (runDuration m idleDurationState (evs ++ [DurationEvent.stopTimer])).pausedTicks ≤
      (runDuration m idleDurationState (evs ++ [DurationEvent.stopTimer])).deliveredTicks ∧
    (runDuration m idleDurationState (evs ++ [DurationEvent.stopTimer])).elapsedSeconds =
      (runDuration m idleDurationState (evs ++ [DurationEvent.stopTimer])).deliveredTicks -
        (runDuration m idleDurationState (evs ++ [DurationEvent.stopTimer])).pausedTicks := by
  have h := tickCountInv_run m idleDurationState (evs ++ [DurationEvent.stopTimer]) rfl
  unfold tickCountInv at h
  omega

/-- Claim C10: remainingSeconds is max(0, budget - elapsed), hence never
negative, even when the elapsed time exceeds the budget, and the formatted
remaining time is always a well-formed non-negative MM:SS value. -/
theorem remainingSeconds_nonneg_wellformed (m e : Nat) :
    0 ≤ remainingSeconds m e ∧
    (maxDurationSeconds m < e → remainingSeconds m e = 0) ∧
    isWellFormedMMSS (formatDuration (remainingSeconds m e).toNat) := by
  refine ⟨le_max_left 0 _, ?_, ?_⟩
  · intro h
    have hx : ((maxDurationSeconds m : Int) - (e : Int)) ≤ 0 := by omega
    unfold remainingSeconds
    exact max_eq_left hx
  · exact ⟨(remainingSeconds m e).toNat / 60, (remainingSeconds m e).toNat % 60,
      Nat.mod_lt _ (by omega), rfl⟩

theorem processResponse_transcribeCalls (env : ProcessingEnv) (filePath : String)
    (durationSeconds : Nat) (s : AppState) :
    (processResponse env filePath durationSeconds s).transcribeCalls =
      s.transcribeCalls := by
  unfold processResponse
  rcases env.transcribe with msg | resp
  · rfl
  · dsimp only
    split
    · rfl
    · rcases env.summarize with msg | md
      · rfl
      · rcases env.updateHistorySummary with e | u <;> rfl

theorem processResponse_isProcessing (env : ProcessingEnv) (filePath : String)
    (durationSeconds : Nat) (s : AppState) :
    (processResponse env filePath durationSeconds s).isProcessing = false := by
  unfold processResponse
  rcases env.transcribe with msg | resp
  · rfl
  · dsimp only
    split
    · rfl
    · rcases env.summarize with msg | md
      · rfl
      · rcases env.updateHistorySummary with e | u <;> rfl

theorem processRecording_run_eq (env : ProcessingEnv) (filePath : String)
    (durationSeconds : Nat) (s : AppState) (h : s.isProcessing = false) :
    processRecording env filePath durationSeconds s =
      processResponse env filePath durationSeconds (prStart s) := by
  simp [processRecording, h]

theorem processRecording_ok_fail_eq (env : ProcessingEnv) (filePath : String)
    (durationSeconds : Nat) (s : AppState) (resp : TranscriptionResponse)
    (hproc : s.isProcessing = false)
    (htr : env.transcribe = Except.ok resp)
    (hfail : (!resp.success || optStrFalsy resp.text) = true) :
    processRecording env filePath durationSeconds s =
      prFailState (prStart s)
        { type := resp.errorType.getD TranscriptionErrorType.unknown,
          message := optStrOrElse resp.errorMessage "Transcription failed",
          retryable := transcribeRetryable resp.errorType } := by
  rw [processRecording_run_eq env filePath durationSeconds s hproc]
  unfold processResponse
  rw [htr]
  simp [hfail]

theorem processRecording_thrown_eq (env : ProcessingEnv) (filePath : String)
    (durationSeconds : Nat) (s : AppState) (msg : String)
    (hproc : s.isProcessing = false)
    (htr : env.transcribe = Except.error msg) :
    processRecording env filePath durationSeconds s =
      prFailState (prStart s)
        { type := TranscriptionErrorType.unknown, message := msg,
          retryable := true } := by
  rw [processRecording_run_eq env filePath durationSeconds s hproc]
  unfold processResponse
  rw [htr]

/-- Claim C1: with the re-entry guard already set, processRecording is a
no-op: the whole state, in particular the transcription-call counter, is
unchanged.  While one invocation is in flight at its first await the guard is
set, so a second invocation for the same locator is dropped, and the run that
proceeds performs exactly one transcription call, clearing the guard on every
exit path (for every behaviour of the collaborators). -/
theorem processRecording_reentry_guard (env env2 : ProcessingEnv)
    (filePath : String) (durationSeconds : Nat) (s : AppState)
    (h : s.isProcessing = false) :
    (∀ s' : AppState, s'.isProcessing = true →
      processRecording env2 filePath durationSeconds s' = s') ∧
    (prStart s).isProcessing = true ∧
    processRecording env2 filePath durationSeconds (prStart s) = prStart s ∧
    (processRecording env filePath durationSeconds s).transcribeCalls =
      s.transcribeCalls + 1 ∧
    (processRecording env filePath durationSeconds s).isProcessing = false := by
  have hnoop : ∀ s' : AppState, s'.isProcessing = true →
      processRecording env2 filePath durationSeconds s' = s' := by
    intro s' h'
    simp [processRecording, h']
  refine ⟨hnoop, rfl, hnoop _ rfl, ?_, ?_⟩
  · rw [processRecording_run_eq env filePath durationSeconds s h,
      processResponse_transcribeCalls]
    rfl
  · rw [processRecording_run_eq env filePath durationSeconds s h,
      processResponse_isProcessing]

/-- Witness for C1: the guard is clear in the initial state, and one run with
all-successful collaborators performs exactly one transcription call and
clears the guard. -/
theorem processRecording_reentry_guard_witness :
    initialAppState.isProcessing = false ∧
    (processRecording envSuccess "path" 5 initialAppState).transcribeCalls =
      initialAppState.transcribeCalls + 1 ∧
    (processRecording envSuccess "path" 5 initialAppState).isProcessing = false :=
  ⟨rfl,
    (processRecording_reentry_guard envSuccess envSuccess "path" 5
      initialAppState rfl).2.2.2.1,
    (processRecording_reentry_guard envSuccess envSuccess "path" 5
      initialAppState rfl).2.2.2.2⟩

/-- Counterexample for C3 as stated: the stored retryable flag is not the
reported one.  This concrete response reports retryable = false with kind
network_error; processRecording stores retryable = true, recomputed from the
kind, so the outcome does not carry the reported flag. -/
theorem processRecording_retryable_not_reported :
    envReportedNotRetryable.transcribe = Except.ok respReportedNotRetryable ∧
    respReportedNotRetryable.retryable = some false ∧
    (processRecording envReportedNotRetryable "path" 5 initialAppState).transcriptionError =
      some { type := TranscriptionErrorType.network_error, message := "net down",
             retryable := true } := by
  refine ⟨rfl, rfl, ?_⟩
  rfl

/-- Claim C3 (amended): for every transcription response with success =
false, processRecording sets the outcome to the failed phase carrying the
reported errorKind (defaulting to unknown) and a retryable flag recomputed
from that kind rather than taken from the response, resets the capture
subsystem to idle, creates no HistoryEntry, and never enters the
summarization phase. -/
theorem processRecording_failed_response (env : ProcessingEnv)
    (filePath : String) (durationSeconds : Nat) (s : AppState)
    (resp : TranscriptionResponse)
    (hproc : s.isProcessing = false)
    (htr : env.transcribe = Except.ok resp)
    (hfail : resp.success = false) :
    (processRecording env filePath durationSeconds s).transcriptionState =
      TranscriptionState.error ∧
    (processRecording env filePath durationSeconds s).transcriptionError =
      some { type := resp.errorType.getD TranscriptionErrorType.unknown,
             message := optStrOrElse resp.errorMessage "Transcription failed",
             retryable := transcribeRetryable resp.errorType } ∧
    (processRecording env filePath durationSeconds s).recordingState =
      RecordingState.idle ∧
    (processRecording env filePath durationSeconds s).recordings = s.recordings ∧
    (processRecording env filePath durationSeconds s).summaryState = s.summaryState ∧
    (processRecording env filePath durationSeconds s).summary = s.summary ∧
    (processRecording env filePath durationSeconds s).summarizeCalls =
      s.summarizeCalls := by
  have hb : (!resp.success || optStrFalsy resp.text) = true := by
    simp [hfail]
  rw [processRecording_ok_fail_eq env filePath durationSeconds s resp hproc htr hb]
  exact ⟨rfl, rfl, rfl, rfl, rfl, rfl, rfl⟩

/-- Witness for C3: the failed network response drives the amended theorem at
a concrete state. -/
theorem processRecording_failed_response_witness :
    initialAppState.isProcessing = false ∧
    envNetworkFail.transcribe = Except.ok respNetworkFail ∧
    respNetworkFail.success = false ∧
    (processRecording envNetworkFail "path" 5 initialAppState).recordingState =
      RecordingState.idle :=
  ⟨rfl, rfl, rfl,
    (processRecording_failed_response envNetworkFail "path" 5 initialAppState
      respNetworkFail rfl rfl rfl).2.2.1⟩

/-- Counterexample for C6 as stated: a thrown transcription error is recorded
with kind unknown and retryable = true, though unknown is neither
network_error nor rate_limit_exceeded, so retryable is not true exactly on
those two kinds. -/
theorem thrown_error_marked_retryable :
    envThrown.transcribe = Except.error "boom" ∧
    (processRecording envThrown "path" 5 initialAppState).transcriptionError =
      some { type := TranscriptionErrorType.unknown, message := "boom",
             retryable := true } ∧
    TranscriptionErrorType.unknown ≠ TranscriptionErrorType.network_error ∧
    TranscriptionErrorType.unknown ≠ TranscriptionErrorType.rate_limit_exceeded := by
  refine ⟨rfl, ?_, by decide, by decide⟩
  rfl

/-- Claim C6 (amended): for every failed transcription response the stored
error is retryable exactly when its kind is network_error or
rate_limit_exceeded; for a thrown error the stored kind is unknown and the
flag is true. -/
theorem transcription_retryable_characterization (env : ProcessingEnv)
    (filePath : String) (durationSeconds : Nat) (s : AppState)
    (hproc : s.isProcessing = false) :
    (∀ resp : TranscriptionResponse, env.transcribe = Except.ok resp →
      resp.success = false →
      ∃ e : TranscriptionError,
        (processRecording env filePath durationSeconds s).transcriptionError = some e ∧
        (e.retryable = true ↔
          (e.type = TranscriptionErrorType.network_error ∨
           e.type = TranscriptionErrorType.rate_limit_exceeded))) ∧
    (∀ msg : String, env.transcribe = Except.error msg →
      (processRecording env filePath durationSeconds s).transcriptionError =
        some { type := TranscriptionErrorType.unknown, message := msg,
               retryable := true }) := by
  constructor
  · intro resp htr hfail
    have hb : (!resp.success || optStrFalsy resp.text) = true := by
      simp [hfail]
    rw [processRecording_ok_fail_eq env filePath durationSeconds s resp hproc htr hb]
    refine ⟨_, rfl, ?_⟩
    rcases het : resp.errorType with _ | k
    · simp [transcribeRetryable]
    · cases k <;> simp [transcribeRetryable]
  · intro msg htr
    rw [processRecording_thrown_eq env filePath durationSeconds s msg hproc htr]
    rfl

/-- Witness for C6: the consistent network failure exercises the
response branch of the amended theorem at a concrete state. -/
theorem transcription_retryable_characterization_witness :
    initialAppState.isProcessing = false ∧
    respNetworkFail.success = false ∧
    (∃ e : TranscriptionError,
      (processRecording envNetworkFail "path" 5 initialAppState).transcriptionError =
        some e ∧
      (e.retryable = true ↔
        (e.type = TranscriptionErrorType.network_error ∨
         e.type = TranscriptionErrorType.rate_limit_exceeded))) :=
  ⟨rfl, rfl,
    (transcription_retryable_characterization envNetworkFail "path" 5
      initialAppState rfl).1 respNetworkFail rfl rfl⟩

/-- Claim C7: when summarization fails, the summary outcome is failed with
the thrown message while the transcription outcome (success phase and stored
text) and the created HistoryEntry are unchanged; summary failure rolls back
nothing. -/
theorem summary_failure_preserves_transcription (env : ProcessingEnv)
    (filePath : String) (durationSeconds : Nat) (s : AppState)
    (resp : TranscriptionResponse) (t msg : String)
    (hproc : s.isProcessing = false)
    (htr : env.transcribe = Except.ok resp)
    (hsucc : resp.success = true)
    (htext : resp.text = some t) (ht : t ≠ "")
    (hsum : env.summarize = Except.error msg) :
    (processRecording env filePath durationSeconds s).summaryState =
      SummaryState.error ∧
    (processRecording env filePath durationSeconds s).summaryError = some msg ∧
    (processRecording env filePath durationSeconds s).transcriptionState =
      TranscriptionState.success ∧
    (processRecording env filePath durationSeconds s).transcription = some t ∧
    (processRecording env filePath durationSeconds s).summary = s.summary ∧
    (processRecording env filePath durationSeconds s).recordings =
      { id := env.newRecordingId, filePath := filePath,
        durationSeconds := durationSeconds, transcription := t,
        createdAt := env.createdAt, summary := none } :: s.recordings := by
  have hb : (!resp.success || optStrFalsy resp.text) = false := by
    simp [hsucc, optStrFalsy, htext, ht]
  rw [processRecording_run_eq env filePath durationSeconds s hproc]
  unfold processResponse
  rw [htr]
  simp only [hb, Bool.false_eq_true, if_false]
  rw [hsum]
  simp [addRecordingToHistory, prStart, htext]

/-- Witness for C7: a successful transcription followed by a failing
summarization at a concrete state. -/
theorem summary_failure_preserves_transcription_witness :
    initialAppState.isProcessing = false ∧
    envSummaryFail.transcribe = Except.ok respSuccess ∧
    respSuccess.success = true ∧
    respSuccess.text = some "hello world" ∧
    "hello world" ≠ "" ∧
    envSummaryFail.summarize = Except.error "sum broke" ∧
    (processRecording envSummaryFail "path" 5 initialAppState).transcriptionState =
      TranscriptionState.success :=
  ⟨rfl, rfl, rfl, rfl, by decide, rfl,
    (summary_failure_preserves_transcription envSummaryFail "path" 5
      initialAppState respSuccess "hello world" "sum broke" rfl rfl rfl rfl
      (by decide) rfl).2.2.1⟩

/-- Claim C8: when persisting the just-generated summary onto its history
entry rejects, the summary outcome stays success with the markdown and its
sourceText retained, the history entry keeps its unpersisted state, and only
a side-channel warning is recorded. -/
theorem attach_failure_preserves_summary (env : ProcessingEnv)
    (filePath : String) (durationSeconds : Nat) (s : AppState)
    (resp : TranscriptionResponse) (t md perr : String)
    (hproc : s.isProcessing = false)
    (htr : env.transcribe = Except.ok resp)
    (hsucc : resp.success = true)
    (htext : resp.text = some t) (ht : t ≠ "")
    (hsum : env.summarize = Except.ok md)
    (hatt : env.updateHistorySummary = Except.error perr) :
    (processRecording env filePath durationSeconds s).summaryState =
      SummaryState.success ∧
    (processRecording env filePath durationSeconds s).summary = some md ∧
    (processRecording env filePath durationSeconds s).summarySourceText = some t ∧
    (processRecording env filePath durationSeconds s).warnings =
      s.warnings ++ [perr] ∧
    (processRecording env filePath durationSeconds s).recordings =
      { id := env.newRecordingId, filePath := filePath,
        durationSeconds := durationSeconds, transcription := t,
        createdAt := env.createdAt, summary := none } :: s.recordings := by
  have hb : (!resp.success || optStrFalsy resp.text) = false := by
    simp [hsucc, optStrFalsy, htext, ht]
  rw [processRecording_run_eq env filePath durationSeconds s hproc]
  unfold processResponse
  rw [htr]
  simp only [hb, Bool.false_eq_true, if_false]
  rw [hsum, hatt]
  simp [addRecordingToHistory, prStart, htext]

/-- Witness for C8: a rejected persistence call at a concrete state leaves
the generated summary in place and records the warning. -/
theorem attach_failure_preserves_summary_witness :
    initialAppState.isProcessing = false ∧
    envAttachFail.updateHistorySummary = Except.error "persist failed" ∧
    (processRecording envAttachFail "path" 5 initialAppState).summaryState =
      SummaryState.success ∧
    (processRecording envAttachFail "path" 5 initialAppState).warnings =
      initialAppState.warnings ++ ["persist failed"] :=
  ⟨rfl, rfl,
    (attach_failure_preserves_summary envAttachFail "path" 5 initialAppState
      respSuccess "hello world" "## Summary" "persist failed" rfl rfl rfl rfl
      (by decide) rfl rfl).1,
    (attach_failure_preserves_summary envAttachFail "path" 5 initialAppState
      respSuccess "hello world" "## Summary" "persist failed" rfl rfl rfl rfl
      (by decide) rfl rfl).2.2.2.1⟩

/-- Counterexample for C2 as stated: entry A is selected with persisted
summary a-sum, a live summary other-sum is in the success phase, and its
recorded sourceText b-text does not match the displayed transcription a-text;
were the sourceText match the deciding check, the mismatched live summary
would be invalidated here, yet the page displays it. -/
theorem displaySummary_sourceText_not_deciding :
    displayTranscription mismatchedSummaryState = some "a-text" ∧
    mismatchedSummaryState.summarySourceText = some "b-text" ∧
    Option.bind (getSelectedRecording mismatchedSummaryState) Recording.summary =
      some "a-sum" ∧
    displaySummary mismatchedSummaryState = some "other-sum" := by
  refine ⟨?_, rfl, ?_, ?_⟩ <;> rfl

/-- Claim C2 (amended): when a history entry is selected and a live summary
has just been generated, the live summary is displayed in preference to the
entry's persisted summary; the deciding check is the live summary's presence
and success phase, not a sourceText match (the sourceText comparison belongs
to an earlier revision of the projection in which the persisted summary took
priority). -/
theorem displaySummary_fresh_priority (s : AppState) (md : String)
    (h1 : s.summary = some md) (h2 : s.summaryState = SummaryState.success) :
    displaySummary s = some md ∧
    displaySummaryState s = SummaryState.success := by
  have hf : hasFreshSummary s = true := by
    simp [hasFreshSummary, h1, h2]
  constructor
  · rw [displaySummary, if_pos hf, h1]
  · rw [displaySummaryState, if_pos hf, h2]

/-- Witness for C2: at the concrete mismatched state the fresh summary wins
over the persisted one. -/
theorem displaySummary_fresh_priority_witness :
    mismatchedSummaryState.summary = some "other-sum" ∧
    mismatchedSummaryState.summaryState = SummaryState.success ∧
    displaySummary mismatchedSummaryState = some "other-sum" :=
  ⟨rfl, rfl,
    (displaySummary_fresh_priority mismatchedSummaryState "other-sum" rfl rfl).1⟩

/-- Claim C9: clearTranscription (the store operation behind clearForRetry)
resets the transcription fields (text to null, phase to idle) and all summary
fields (text, sourceText and error to null, phase to idle), so the cleared
state holds no summary without the transcription it was computed from. -/
theorem clearTranscription_clears_summary (s : AppState) :
    (clearTranscription s).transcription = none ∧
    (clearTranscription s).transcriptionState = TranscriptionState.idle ∧
    (clearTranscription s).transcriptionError = none ∧
    (clearTranscription s).summary = none ∧
    (clearTranscription s).summaryState = SummaryState.idle ∧
    (clearTranscription s).summaryError = none ∧
    (clearTranscription s).summarySourceText = none :=
  ⟨rfl, rfl, rfl, rfl, rfl, rfl, rfl⟩

end EverVoice
